import Mathlib

/-!
Shallow embedding of the sfsimodels core (`sfsimodels/models/soils.py`,
`sfsimodels/models/abstract_models.py`, `sfsimodels/files.py`).

Modelling conventions:
* Python floats are embedded as `ℚ` (the repository only adds, subtracts,
  multiplies, divides and compares them, all exact here).
* Python `None` is `Option.none`; an attribute that may hold a number or
  `None` is `Option ℚ`.
* A Python instance attribute that may be entirely absent (never assigned,
  so that reading it raises `AttributeError`) is `Option (Option ℚ)`:
  `none` = absent, `some v` = present with value `v`.
* Python exceptions are `PyErr`.  A property setter mutates `self` and may
  then raise; mutations made before the raise persist.  Setters are
  therefore embedded as `Soil → Option ℚ → Soil × Option PyErr`
  (state afterwards, raised exception if any).
* The class constant `_pw = 1000` is never reassigned anywhere in the
  repository and is embedded as the literal `1000`; likewise
  `skip_list = ()` is empty and `inputs` is the fixed list below.
-/

/-- The Python exception classes raised by the embedded code.  `keyError`
is a `LookupError`; `modelError` is the library's `ModelError`, which the
specification calls `ConsistencyError` when raised by a consistency
check. -/
inductive PyErr where
  | modelError
  | typeError
  | attributeError
  | keyError
  | zeroDivisionError
deriving DecidableEq, Repr

/-- State of a `Soil` instance (class `Soil` of `soils.py`).  Fields named
`_x` are the storage slots read and written by the `x` property.  `g_mod`
and `poissons` model the *instance* attributes `g_mod` and
`poissons_ratio`: the class declares only `_g_mod`/`_poissons_ratio` and
no property for them, so the public names exist only if a caller assigned
them (outer `none` = attribute absent).  `extras` is the rest of the
instance `__dict__`: names that no code of the repository ever reads
(e.g. `_g_mod` itself, or arbitrary keys stored by `setattr`). -/
structure Soil where
  _phi : Option ℚ := none
  _cohesion : Option ℚ := none
  _unit_dry_weight : Option ℚ := none
  _e_min : Option ℚ := none
  _e_max : Option ℚ := none
  _e_curr : Option ℚ := none
  _relative_density : Option ℚ := none
  _specific_gravity : Option ℚ := none
  _unit_sat_weight : Option ℚ := none
  _saturation : Option ℚ := none
  e_cr0 : Option ℚ := some 0
  p_cr0 : Option ℚ := some 0
  lamb_crl : Option ℚ := some 0
  g_mod : Option (Option ℚ) := none
  poissons : Option (Option ℚ) := none
  id : Option (Option ℚ) := none
  extras : List (String × Option ℚ) := []
deriving DecidableEq, Repr

/-- A freshly constructed `Soil()`. -/
def freshSoil : Soil := {}

/-- `Soil.inputs` (soils.py lines 33-46), in declaration order. -/
def soilInputs : List String :=
  ["g_mod", "phi", "relative_density", "unit_dry_weight", "unit_sat_weight",
   "cohesion", "poissons_ratio", "e_min", "e_max", "e_cr0", "p_cr0", "lamb_crl"]

/-- Setter of the plain `phi` property: stores the value. -/
def Soil.setPhi (s : Soil) (v : Option ℚ) : Soil × Option PyErr :=
  ({ s with _phi := v }, none)

/-- Setter of the plain `cohesion` property. -/
def Soil.setCohesion (s : Soil) (v : Option ℚ) : Soil × Option PyErr :=
  ({ s with _cohesion := v }, none)

/-- Setter of the plain `saturation` property. -/
def Soil.setSaturation (s : Soil) (v : Option ℚ) : Soil × Option PyErr :=
  ({ s with _saturation := v }, none)

/-- Setter of the plain `e_min` property. -/
def Soil.setEMin (s : Soil) (v : Option ℚ) : Soil × Option PyErr :=
  ({ s with _e_min := v }, none)

/-- Setter of the plain `e_max` property. -/
def Soil.setEMax (s : Soil) (v : Option ℚ) : Soil × Option PyErr :=
  ({ s with _e_max := v }, none)

/-- Setter of the `e_curr` property (soils.py lines 92-100):
`void_ratio = e_max - relative_density * (e_max - e_min)` is attempted;
if any of the three peers is `None` the `TypeError` is caught and the raw
value is stored; otherwise a differing value raises `ModelError` and an
equal value does nothing (the consistent branch never stores). -/
def Soil.setECurr (s : Soil) (value : Option ℚ) : Soil × Option PyErr :=
  match s._e_max, s._relative_density, s._e_min with
  | some emax, some rd, some emin =>
      let void_ratio := emax - rd * (emax - emin)
      if some void_ratio ≠ value then (s, some .modelError) else (s, none)
  | _, _, _ => ({ s with _e_curr := value }, none)

/-- Setter of the `unit_dry_weight` property (soils.py lines 75-86).
The raw value is stored first; then, if `e_curr` is set,
`specific_gravity = (1 + e_curr) * unit_dry_weight / pw` is derived and
checked against (or stored into) `_specific_gravity`; else if
`_specific_gravity` is set, `e_curr = specific_gravity * pw /
unit_dry_weight - 1` is assigned through the `e_curr` setter.  The
`override` keyword of the source is unreachable through property
assignment and is embedded as its default `False`. -/
def Soil.setUnitDryWeight (s : Soil) (value : Option ℚ) : Soil × Option PyErr :=
  let s1 : Soil := { s with _unit_dry_weight := value }
  match s1._e_curr with
  | some ec =>
      match value with
      | none => (s1, some .typeError)
      | some v =>
          let sg := (1 + ec) * v / 1000
          match s1._specific_gravity with
          | some g => if g ≠ sg then (s1, some .modelError) else (s1, none)
          | none => ({ s1 with _specific_gravity := some sg }, none)
  | none =>
      match s1._specific_gravity with
      | some g =>
          match value with
          | none => (s1, some .typeError)
          | some v =>
              if v = 0 then (s1, some .zeroDivisionError)
              else s1.setECurr (some (g * 1000 / v - 1))
      | none => (s1, none)

/-- Setter of the `specific_gravity` property (soils.py lines 106-115).
The raw value is stored first; then, if `e_curr` is set,
`unit_dry_weight = specific_gravity * pw / (1 + e_curr)` is derived and
checked against `_unit_dry_weight`, or assigned through the
`unit_dry_weight` setter when that slot is empty. -/
def Soil.setSpecificGravity (s : Soil) (value : Option ℚ) : Soil × Option PyErr :=
  let s1 : Soil := { s with _specific_gravity := value }
  match s1._e_curr with
  | none => (s1, none)
  | some ec =>
      match value with
      | none => (s1, some .typeError)
      | some g =>
          if 1 + ec = 0 then (s1, some .zeroDivisionError)
          else
            let udw := g * 1000 / (1 + ec)
            match s1._unit_dry_weight with
            | some u => if u ≠ udw then (s1, some .modelError) else (s1, none)
            | none => s1.setUnitDryWeight (some udw)

/-- The `except TypeError` branch of the `unit_sat_weight` setter
(soils.py lines 159-173): store the raw value, then try to propagate to
`saturation` and `unit_dry_weight`. -/
def Soil.setUnitSatWeightStore (s : Soil) (value : Option ℚ) : Soil × Option PyErr :=
  let s1 : Soil := { s with _unit_sat_weight := value }
  match s1._unit_dry_weight with
  | none => (s1, none)
  | some udw =>
      match value with
      | none => (s1, some .typeError)
      | some v =>
          let umw := v - udw
          let umv := umw / 1000
          match s1._e_curr with
          | some ec =>
              if 1 + ec = 0 then (s1, some .zeroDivisionError)
              else
                let uvv := ec / (1 + ec)
                if uvv = 0 then (s1, some .zeroDivisionError)
                else
                  let s2 : Soil := { s1 with _saturation := some (umv / uvv) }
                  match s2._saturation with
                  | none => (s2, none)
                  | some sat =>
                      if sat = 0 then (s2, some .zeroDivisionError)
                      else
                        let uvv2 := umv / sat
                        match s2._specific_gravity with
                        | some g => s2.setUnitDryWeight (some ((1 - uvv2) * g * 1000))
                        | none =>
                            match s2._e_curr with
                            | some _ => s2.setUnitDryWeight (some (v - umw))
                            | none => (s2, none)
          | none =>
              match s1._saturation with
              | none => (s1, none)
              | some sat =>
                  if sat = 0 then (s1, some .zeroDivisionError)
                  else
                    let uvv2 := umv / sat
                    match s1._specific_gravity with
                    | some g => s1.setUnitDryWeight (some ((1 - uvv2) * g * 1000))
                    | none => (s1, none)

/-- Setter of the `unit_sat_weight` property (soils.py lines 153-173).
The `try` block computes `_unit_moisture_weight + unit_dry_weight`, where
`_unit_moisture_weight = saturation * (e_curr / (1 + e_curr)) * pw`; a
`TypeError` from any unset operand falls into the storing branch
(`Soil.setUnitSatWeightStore`); a computed value differing from `value`
raises `ModelError`; `e_curr = -1` raises an uncaught
`ZeroDivisionError`. -/
def Soil.setUnitSatWeight (s : Soil) (value : Option ℚ) : Soil × Option PyErr :=
  match s._e_curr with
  | none => s.setUnitSatWeightStore value
  | some ec =>
      if 1 + ec = 0 then (s, some .zeroDivisionError)
      else
        match s._saturation with
        | none => s.setUnitSatWeightStore value
        | some sat =>
            match s._unit_dry_weight with
            | none => s.setUnitSatWeightStore value
            | some udw =>
                let usw := sat * (ec / (1 + ec)) * 1000 + udw
                if some usw ≠ value then (s, some .modelError) else (s, none)

/-- Setter of the `relative_density` property (soils.py lines 196-204):
`(e_max - e_curr) / (e_max - e_min)` is attempted; a `TypeError` from an
unset peer stores the raw value; a computed value differing from `value`
raises `ModelError` (before the store); `e_max = e_min` raises an
uncaught `ZeroDivisionError`. -/
def Soil.setRelativeDensity (s : Soil) (value : Option ℚ) : Soil × Option PyErr :=
  match s._e_max, s._e_curr, s._e_min with
  | some emax, some ec, some emin =>
      if emax - emin = 0 then (s, some .zeroDivisionError)
      else
        let rd := (emax - ec) / (emax - emin)
        if some rd ≠ value then (s, some .modelError)
        else ({ s with _relative_density := value }, none)
  | _, _, _ => ({ s with _relative_density := value }, none)

/-- The read-only `unit_weight` property (soils.py lines 48-53): the
saturated weight if `saturation` is truthy (set and nonzero), else the
dry weight.  The result may be Python `None`. -/
def Soil.unitWeight (s : Soil) : Option ℚ :=
  match s._saturation with
  | some v => if v ≠ 0 then s._unit_sat_weight else s._unit_dry_weight
  | none => s._unit_dry_weight

/-- Python dict assignment `d[k] = v` on an (ordered) dict represented as
an association list: an existing key keeps its position and gets the new
value, a new key is appended. -/
def odAssign {κ α : Type} [DecidableEq κ] (l : List (κ × α)) (k : κ) (v : α) :
    List (κ × α) :=
  if l.any (fun q => decide (q.1 = k)) then
    l.map (fun q => if q.1 = k then (k, v) else q)
  else l ++ [(k, v)]

/-- `object.__getattribute__` on a `Soil`, restricted to the names read
by `to_dict` (the `inputs` list) plus `id`: property reads return the
storage slot, plain class attributes return their (possibly shadowed)
value, and a name that is neither a class attribute nor in the instance
`__dict__` raises `AttributeError`. -/
def Soil.getattrInput (s : Soil) (k : String) : Except PyErr (Option ℚ) :=
  if k = "g_mod" then
    match s.g_mod with
    | none => .error .attributeError
    | some v => .ok v
  else if k = "phi" then .ok s._phi
  else if k = "relative_density" then .ok s._relative_density
  else if k = "unit_dry_weight" then .ok s._unit_dry_weight
  else if k = "unit_sat_weight" then .ok s._unit_sat_weight
  else if k = "cohesion" then .ok s._cohesion
  else if k = "poissons_ratio" then
    match s.poissons with
    | none => .error .attributeError
    | some v => .ok v
  else if k = "e_min" then .ok s._e_min
  else if k = "e_max" then .ok s._e_max
  else if k = "e_cr0" then .ok s.e_cr0
  else if k = "p_cr0" then .ok s.p_cr0
  else if k = "lamb_crl" then .ok s.lamb_crl
  else if k = "id" then
    match s.id with
    | none => .error .attributeError
    | some v => .ok v
  else
    match s.extras.find? (fun q => q.1 == k) with
    | some q => .ok q.2
    | none => .error .attributeError

/-- The loop body of `PhysicalObject.to_dict` over a list of attribute
names: read each name, raising at the first failure. -/
def collectInputs (s : Soil) : List String → Except PyErr (List (String × Option ℚ))
  | [] => .ok []
  | k :: rest =>
      match s.getattrInput k with
      | .error e => .error e
      | .ok v =>
          match collectInputs s rest with
          | .error e => .error e
          | .ok t => .ok ((k, v) :: t)

/-- `PhysicalObject.to_dict` (abstract_models.py lines 75-88) on a
`Soil`: an ordered mapping from every name of `inputs` to its current
value.  `export_none` defaults to `True` (so `None` values appear),
`skip_list` is empty, `extra` is empty, and `collect_serial_value` is
modelled from the spec: it flattens nested values to serializable
primitives and is the identity on the scalar values a `Soil` holds
(`sfsimodels/functions.py` is not part of the given sources). -/
def Soil.to_dict (s : Soil) : Except PyErr (List (String × Option ℚ)) :=
  collectInputs s soilInputs

/-- Dispatch table for `setattr` on a `Soil`: one handler per attribute
name the class declares.  Properties with a setter run it; read-only
properties (no setter) raise `AttributeError`; plain class attributes
and the storage slots are stored directly. -/
def soilHandlers : List (String × (Soil → Option ℚ → Soil × Option PyErr)) :=
  [("phi", Soil.setPhi),
   ("cohesion", Soil.setCohesion),
   ("unit_dry_weight", Soil.setUnitDryWeight),
   ("e_curr", Soil.setECurr),
   ("specific_gravity", Soil.setSpecificGravity),
   ("saturation", Soil.setSaturation),
   ("unit_sat_weight", Soil.setUnitSatWeight),
   ("e_min", Soil.setEMin),
   ("e_max", Soil.setEMax),
   ("relative_density", Soil.setRelativeDensity),
   ("unit_weight", fun s _ => (s, some .attributeError)),
   ("porosity", fun s _ => (s, some .attributeError)),
   ("moisture_content", fun s _ => (s, some .attributeError)),
   ("phi_r", fun s _ => (s, some .attributeError)),
   ("k_0", fun s _ => (s, some .attributeError)),
   ("n1_60", fun s _ => (s, some .attributeError)),
   ("attributes", fun s _ => (s, some .attributeError)),
   ("ancestor_types", fun s _ => (s, some .attributeError)),
   ("_unit_void_volume", fun s _ => (s, some .attributeError)),
   ("_unit_solid_volume", fun s _ => (s, some .attributeError)),
   ("_unit_moisture_weight", fun s _ => (s, some .attributeError)),
   ("e_cr0", fun s v => ({ s with e_cr0 := v }, none)),
   ("p_cr0", fun s v => ({ s with p_cr0 := v }, none)),
   ("lamb_crl", fun s v => ({ s with lamb_crl := v }, none)),
   ("g_mod", fun s v => ({ s with g_mod := some v }, none)),
   ("poissons_ratio", fun s v => ({ s with poissons := some v }, none)),
   ("id", fun s v => ({ s with id := some v }, none)),
   ("_phi", fun s v => ({ s with _phi := v }, none)),
   ("_cohesion", fun s v => ({ s with _cohesion := v }, none)),
   ("_unit_dry_weight", fun s v => ({ s with _unit_dry_weight := v }, none)),
   ("_e_min", fun s v => ({ s with _e_min := v }, none)),
   ("_e_max", fun s v => ({ s with _e_max := v }, none)),
   ("_e_curr", fun s v => ({ s with _e_curr := v }, none)),
   ("_relative_density", fun s v => ({ s with _relative_density := v }, none)),
   ("_specific_gravity", fun s v => ({ s with _specific_gravity := v }, none)),
   ("_unit_sat_weight", fun s v => ({ s with _unit_sat_weight := v }, none)),
   ("_saturation", fun s v => ({ s with _saturation := v }, none))]

/-- The attribute names of a `Soil` that resolve to a class-level
property or attribute: every other name assigned by `setattr` lands in
the instance `__dict__` (`extras`). -/
def soilDeclaredKeys : List String := soilHandlers.map Prod.fst

/-- `setattr(soil, k, v)`: run the matching property setter, raise
`AttributeError` for a property without a setter, store a plain
attribute, and store an undeclared name in the instance `__dict__`. -/
def setattrSoil (s : Soil) (k : String) (v : Option ℚ) : Soil × Option PyErr :=
  match soilHandlers.find? (fun h => h.1 == k) with
  | some h => h.2 s v
  | none => ({ s with extras := odAssign s.extras k v }, none)

/-- `add_to_obj` (files.py lines 8-24) on a `Soil`: walk the mapping in
order, skip keys in `exceptions`, skip entries whose value is `None`,
and `setattr` the rest; the first exception raised by a setter
propagates (keeping the mutations made so far). -/
def addToObj (s : Soil) : List (String × Option ℚ) → List String → Soil × Option PyErr
  | [], _ => (s, none)
  | (k, v) :: rest, ex =>
      if k ∈ ex then addToObj s rest ex
      else
        match v with
        | none => addToObj s rest ex
        | some x =>
            match setattrSoil s k (some x) with
            | (s', none) => addToObj s' rest ex
            | (s', some e) => (s', some e)

/-- The `Soil` branch of `Output.add_to_dict` (files.py lines 138-149):
read `an_object.id` (an `AttributeError` if the instance never got one),
raise `ModelError` when it is `None`, and otherwise serialize with
`to_dict`. -/
def addToDict (s : Soil) : Except PyErr (List (String × Option ℚ)) :=
  match s.id with
  | none => .error .attributeError
  | some iv => if iv = none then .error .modelError else s.to_dict

/-- The ordering the layer dict is kept in: ascending by depth, the key
function of `SoilProfile._sort_layers`. -/
def layerLE (a b : ℚ × Soil) : Prop := a.1 ≤ b.1

instance : DecidableRel layerLE := fun a b => inferInstanceAs (Decidable (a.1 ≤ b.1))

instance : IsTotal (ℚ × Soil) layerLE := ⟨fun a b => le_total a.1 b.1⟩

instance : IsTrans (ℚ × Soil) layerLE := ⟨fun _ _ _ h1 h2 => le_trans h1 h2⟩

/-- State of a `SoilProfile` instance (soils.py lines 224-340): the
ordered depth-to-soil dict as an association list in iteration order,
plus the scalar class attributes. -/
structure SoilProfile where
  layers : List (ℚ × Soil)
  gwl : Option ℚ := none
  unit_weight_water : ℚ := 9800
deriving Repr

/-- `SoilProfile()`: one implicit layer, a fresh soil at depth 0. -/
def SoilProfile.initial : SoilProfile := { layers := [(0, freshSoil)] }

/-- `SoilProfile._sort_layers`: rebuild the dict sorted ascending by
depth (Python `sorted` with `key=lambda t: t[0]`). -/
def sortLayers (l : List (ℚ × Soil)) : List (ℚ × Soil) :=
  List.insertionSort layerLE l

/-- `SoilProfile.add_layer(depth, soil)` (soils.py lines 242-244):
assign the layer dict at `depth`, then re-sort by depth. -/
def SoilProfile.add_layer (p : SoilProfile) (depth : ℚ) (soil : Soil) : SoilProfile :=
  { p with layers := sortLayers (odAssign p.layers depth soil) }

/-- `SoilProfile.remove_layer(depth)` (soils.py lines 257-258):
`del self._layers[depth]`, a `KeyError` when the depth is absent. -/
def SoilProfile.remove_layer (p : SoilProfile) (depth : ℚ) : Except PyErr SoilProfile :=
  if p.layers.any (fun q => decide (q.1 = depth)) then
    .ok { p with layers := p.layers.filter (fun q => decide (¬ q.1 = depth)) }
  else .error .keyError

/-- The `depths` property: the dict's keys in iteration order. -/
def SoilProfile.depths (p : SoilProfile) : List ℚ := p.layers.map Prod.fst

/-- The loop of `SoilProfile.one_vertical_total_stress` (soils.py lines
317-332) over the (depth, soil) pairs in iteration order: a layer whose
top is strictly above `z` contributes `unit_weight` times its thickness,
clipped at `z` for the layer containing `z` (which ends the loop); a
`None` unit weight raises `TypeError` at its multiplication. -/
def ovtsLayers : List (ℚ × Soil) → ℚ → Except PyErr ℚ
  | [], _ => .ok 0
  | [(d, s)], z =>
      if d < z then
        match s.unitWeight with
        | none => .error .typeError
        | some w => .ok ((z - d) * w)
      else .ok 0
  | (d1, s1) :: (d2, s2) :: rest, z =>
      if d1 < z then
        if d2 < z then
          match s1.unitWeight with
          | none => .error .typeError
          | some w =>
              match ovtsLayers ((d2, s2) :: rest) z with
              | .error e => .error e
              | .ok t => .ok ((d2 - d1) * w + t)
        else
          match s1.unitWeight with
          | none => .error .typeError
          | some w => .ok ((z - d1) * w)
      else ovtsLayers ((d2, s2) :: rest) z

/-- `SoilProfile.one_vertical_total_stress(z_c)`. -/
def SoilProfile.one_vertical_total_stress (p : SoilProfile) (z : ℚ) : Except PyErr ℚ :=
  ovtsLayers p.layers z

/-- `SoilProfile.vertical_total_stress(z)` on a scalar argument (the
element-wise array branch applies the same scalar rule per element and
is outside the claims). -/
def SoilProfile.vertical_total_stress (p : SoilProfile) (z : ℚ) : Except PyErr ℚ :=
  p.one_vertical_total_stress z

/-- `SoilProfile.vertical_effective_stress(z_c)` (soils.py lines
334-340): `total_stress - max(z_c - gwl, 0.0) * unit_weight_water`, a
`TypeError` when `gwl` is unset. -/
def SoilProfile.vertical_effective_stress (p : SoilProfile) (z : ℚ) : Except PyErr ℚ :=
  match p.vertical_total_stress z with
  | .error e => .error e
  | .ok t =>
      match p.gwl with
      | none => .error .typeError
      | some g => .ok (t - max (z - g) 0 * p.unit_weight_water)

/-- A structural mutation of the layer mapping. -/
inductive LayerOp where
  | addL : ℚ → Soil → LayerOp
  | removeL : ℚ → LayerOp

/-- Apply one structural mutation. -/
def applyOp (p : SoilProfile) : LayerOp → Except PyErr SoilProfile
  | .addL d s => .ok (p.add_layer d s)
  | .removeL d => p.remove_layer d

/-- Run a sequence of structural mutations, stopping at the first
`KeyError`. -/
def runOps (p : SoilProfile) : List LayerOp → Except PyErr SoilProfile
  | [] => .ok p
  | op :: rest =>
      match applyOp p op with
      | .ok p' => runOps p' rest
      | .error e => .error e

/-- The ordering invariant of the layer dict: iteration order strictly
ascending by depth (keys are unique). -/
def KeysSorted (l : List (ℚ × Soil)) : Prop :=
  List.Pairwise (fun a b : ℚ × Soil => a.1 < b.1) l

/-- The stress loop on bare (depth, unit weight) pairs, for reasoning:
`ovtsLayers` with every unit weight already resolved. -/
def ovtsP : List (ℚ × ℚ) → ℚ → ℚ
  | [], _ => 0
  | [(d, w)], z => if d < z then (z - d) * w else 0
  | (d1, w1) :: (d2, w2) :: rest, z =>
      if d1 < z then
        if d2 < z then (d2 - d1) * w1 + ovtsP ((d2, w2) :: rest) z
        else (z - d1) * w1
      else ovtsP ((d2, w2) :: rest) z

/-- Resolve each layer's unit weight. -/
def resolveWeights (l : List (ℚ × Soil)) : List (ℚ × ℚ) :=
  l.map (fun q => (q.1, (Soil.unitWeight q.2).getD 0))

/-- Depth keys of a layer list. -/
def layerKeys (l : List (ℚ × Soil)) : List ℚ := l.map Prod.fst

/-- A `Soil` with its instance dictionary cleared: two soils with equal
`clearExtras` agree on every declared attribute. -/
def Soil.clearExtras (s : Soil) : Soil := { s with extras := [] }

/-- The consistency relation the `specific_gravity` setter enforces under
the current state: whenever `e_curr` and `unit_dry_weight` are both set,
the new value must equal `(1 + e_curr) * unit_dry_weight / pw`; with
either dependency unset no derivation is possible and any value is
consistent (the missing-dependency leniency of the design). -/
def sgPairConsistent (s : Soil) (v : ℚ) : Prop :=
  ∀ ec ∈ s._e_curr, ∀ u ∈ s._unit_dry_weight, v = (1 + ec) * u / 1000

/-- A soil with `e_min = 0.4`, `e_max = 0.8`, `relative_density = 0.5`
assigned through the setters (and `e_curr` still unset). -/
def c1_soil : Soil :=
  (((freshSoil.setEMin (some (2/5))).1.setEMax (some (4/5))).1.setRelativeDensity
    (some (1/2))).1

/-- A soil with `unit_dry_weight = 18000` and nothing else assigned. -/
def soilA : Soil := (freshSoil.setUnitDryWeight (some 18000)).1

/-- A soil with `unit_dry_weight = 19000` and nothing else assigned. -/
def soilB : Soil := (freshSoil.setUnitDryWeight (some 19000)).1

/-- The profile of the specification scenario: layers at depths 0 and 5
holding `soilA` and `soilB`, and `gwl = 2`. -/
def c6_profile : SoilProfile :=
  { (SoilProfile.initial.add_layer 0 soilA).add_layer 5 soilB with gwl := some 2 }

/-- A soil whose `id` instance attribute was assigned `None`. -/
def c9_soil : Soil := { freshSoil with id := some none }

/-- A soil built by `e_curr = 0.5` then `specific_gravity = 2.65`; the
second assignment propagates `unit_dry_weight = 2.65 * 1000 / 1.5`. -/
def c10_soil : Soil :=
  ((freshSoil.setECurr (some (1/2))).1.setSpecificGravity (some (53/20))).1

/-- When every layer's unit weight is set, the embedded loop computes the
pure sum. -/
lemma ovtsLayers_eq_ovtsP (l : List (ℚ × Soil)) (z : ℚ)
    (hw : ∀ q ∈ l, (Soil.unitWeight q.2).isSome) :
    ovtsLayers l z = .ok (ovtsP (resolveWeights l) z) := by
  induction l with
  | nil => simp [ovtsLayers, ovtsP, resolveWeights]
  | cons hd tl ih =>
    obtain ⟨d1, s1⟩ := hd
    have h1 : (Soil.unitWeight s1).isSome := hw _ (List.mem_cons_self _ _)
    obtain ⟨w1, hw1⟩ := Option.isSome_iff_exists.mp h1
    cases tl with
    | nil =>
      simp only [ovtsLayers, resolveWeights, List.map, ovtsP, hw1, Option.getD_some]
      split <;> simp
    | cons hd2 tl2 =>
      obtain ⟨d2, s2⟩ := hd2
      have ih' := ih (fun q hq => hw q (List.mem_cons_of_mem _ hq))
      simp only [ovtsLayers, resolveWeights, List.map, ovtsP, hw1, Option.getD_some]
      simp only [resolveWeights, List.map] at ih'
      split
      · split
        · rw [ih']
        · rfl
      · rw [ih']

/-- Below (or at) the top of every layer the loop adds nothing. -/
lemma ovtsP_zero (l : List (ℚ × ℚ)) (z : ℚ) (h : ∀ q ∈ l, z ≤ q.1) :
    ovtsP l z = 0 := by
  induction l with
  | nil => rfl
  | cons hd tl ih =>
    obtain ⟨d, w⟩ := hd
    have hd1 : z ≤ d := h _ (List.mem_cons_self _ _)
    have hlt : ¬ d < z := not_lt.mpr hd1
    cases tl with
    | nil => simp [ovtsP, hlt]
    | cons hd2 tl2 =>
      simp only [ovtsP, if_neg hlt]
      exact ih (fun q hq => h q (List.mem_cons_of_mem _ hq))

/-- With depths ascending and unit weights non-negative, the computed
stress is non-negative. -/
lemma ovtsP_nonneg (l : List (ℚ × ℚ)) (z : ℚ)
    (hs : List.Pairwise (fun a b : ℚ × ℚ => a.1 ≤ b.1) l)
    (hw : ∀ q ∈ l, 0 ≤ q.2) : 0 ≤ ovtsP l z := by
  induction l with
  | nil => simp [ovtsP]
  | cons hd tl ih =>
    obtain ⟨d, w⟩ := hd
    have hw1 : 0 ≤ w := hw _ (List.mem_cons_self _ _)
    have hwtl : ∀ q ∈ tl, 0 ≤ q.2 := fun q hq => hw q (List.mem_cons_of_mem _ hq)
    have ih' := ih hs.of_cons hwtl
    cases tl with
    | nil =>
      simp only [ovtsP]
      split
      · exact mul_nonneg (by linarith [lt_of_lt_of_le (show d < z by assumption) le_rfl]) hw1
      · exact le_rfl
    | cons hd2 tl2 =>
      obtain ⟨d2, w2⟩ := hd2
      have hdd : d ≤ d2 := (List.pairwise_cons.mp hs).1 _ (List.mem_cons_self _ _)
      simp only [ovtsP]
      split
      · split
        · have : (0:ℚ) ≤ (d2 - d) * w := mul_nonneg (by linarith) hw1
          linarith [ih']
        · exact mul_nonneg (by linarith [(show d < z by assumption)]) hw1
      · exact ih'

/-- With depths ascending and unit weights non-negative, the computed
stress is non-decreasing in the query depth. -/
lemma ovtsP_mono (l : List (ℚ × ℚ)) {z1 z2 : ℚ}
    (hs : List.Pairwise (fun a b : ℚ × ℚ => a.1 ≤ b.1) l)
    (hw : ∀ q ∈ l, 0 ≤ q.2) (hz : z1 ≤ z2) :
    ovtsP l z1 ≤ ovtsP l z2 := by
  induction l with
  | nil => simp [ovtsP]
  | cons hd tl ih =>
    obtain ⟨d, w⟩ := hd
    have hw1 : 0 ≤ w := hw _ (List.mem_cons_self _ _)
    have hwtl : ∀ q ∈ tl, 0 ≤ q.2 := fun q hq => hw q (List.mem_cons_of_mem _ hq)
    have ih' := ih hs.of_cons hwtl
    cases tl with
    | nil =>
      simp only [ovtsP]
      by_cases h1 : d < z1
      · rw [if_pos h1, if_pos (lt_of_lt_of_le h1 hz)]
        exact mul_le_mul_of_nonneg_right (by linarith) hw1
      · rw [if_neg h1]
        split
        · exact mul_nonneg (by linarith [(show d < z2 by assumption)]) hw1
        · exact le_rfl
    | cons hd2 tl2 =>
      obtain ⟨d2, w2⟩ := hd2
      have hdd : d ≤ d2 := (List.pairwise_cons.mp hs).1 _ (List.mem_cons_self _ _)
      have hdall : ∀ q ∈ (d2, w2) :: tl2, d ≤ q.1 :=
        fun q hq => (List.pairwise_cons.mp hs).1 _ hq
      have htl_nonneg : 0 ≤ ovtsP ((d2, w2) :: tl2) z2 :=
        ovtsP_nonneg _ _ hs.of_cons hwtl
      simp only [ovtsP]
      by_cases h1 : d < z1
      · have h1' : d < z2 := lt_of_lt_of_le h1 hz
        rw [if_pos h1, if_pos h1']
        by_cases h2 : d2 < z1
        · have h2' : d2 < z2 := lt_of_lt_of_le h2 hz
          rw [if_pos h2, if_pos h2']
          linarith [ih']
        · rw [if_neg h2]
          by_cases h2' : d2 < z2
          · rw [if_pos h2']
            have hle : (z1 - d) * w ≤ (d2 - d) * w :=
              mul_le_mul_of_nonneg_right (by linarith [not_lt.mp h2]) hw1
            linarith
          · rw [if_neg h2']
            exact mul_le_mul_of_nonneg_right (by linarith) hw1
      · rw [if_neg h1]
        by_cases h1' : d < z2
        · rw [if_pos h1']
          have hz1d : z1 ≤ d := not_lt.mp h1
          have hzero : ovtsP ((d2, w2) :: tl2) z1 = 0 :=
            ovtsP_zero _ _ (fun q hq => le_trans hz1d (hdall q hq))
          by_cases h2' : d2 < z2
          · rw [if_pos h2']
            have : (0:ℚ) ≤ (d2 - d) * w := mul_nonneg (by linarith) hw1
            rw [hzero]
            linarith
          · rw [if_neg h2', hzero]
            exact mul_nonneg (by linarith) hw1
        · rw [if_neg h1']
          exact ih'

/-- `odAssign` keeps the key set duplicate-free. -/
lemma layerKeys_nodup_odAssign (l : List (ℚ × Soil)) (d : ℚ) (s : Soil)
    (h : (layerKeys l).Nodup) : (layerKeys (odAssign l d s)).Nodup := by
  unfold odAssign
  split
  · have : layerKeys (l.map fun q => if q.1 = d then (d, s) else q) = layerKeys l := by
      unfold layerKeys
      rw [List.map_map]
      apply List.map_congr_left
      intro q _
      by_cases hq : q.1 = d
      · simp [hq]
      · simp [hq]
    rw [this]; exact h
  · unfold layerKeys at h ⊢
    rw [List.map_append]
    simp only [List.map_cons, List.map_nil]
    rw [List.nodup_append]
    refine ⟨h, List.nodup_singleton d, ?_⟩
    intro a ha hb
    simp only [List.mem_singleton] at hb
    obtain ⟨q, hq, hq1⟩ := List.mem_map.mp ha
    have : l.any (fun q => decide (q.1 = d)) = true :=
      List.any_eq_true.mpr ⟨q, hq, by simp [hq1, hb]⟩
    simp_all

/-- Strict ascending iteration order follows from weak sortedness plus
duplicate-free keys. -/
lemma keysSorted_of_sorted_nodup (l : List (ℚ × Soil))
    (hs : List.Pairwise layerLE l) (hn : (layerKeys l).Nodup) : KeysSorted l := by
  unfold KeysSorted
  unfold layerKeys at hn
  have hn' : List.Pairwise (fun a b : ℚ × Soil => a.1 ≠ b.1) l :=
    List.pairwise_map.mp hn
  exact (hs.and hn').imp (fun h => lt_of_le_of_ne h.1 h.2)

/-- `sortLayers` of a list with duplicate-free keys is strictly sorted
by depth. -/
lemma keysSorted_sortLayers (l : List (ℚ × Soil)) (hn : (layerKeys l).Nodup) :
    KeysSorted (sortLayers l) := by
  apply keysSorted_of_sorted_nodup
  · exact List.sorted_insertionSort layerLE l
  · unfold layerKeys
    have hp := List.perm_insertionSort layerLE l
    exact (((hp.map Prod.fst).nodup_iff).mpr hn : (List.map Prod.fst (sortLayers l)).Nodup)

/-- Strict sortedness gives duplicate-free keys. -/
lemma layerKeys_nodup_of_keysSorted (l : List (ℚ × Soil)) (h : KeysSorted l) :
    (layerKeys l).Nodup := by
  unfold layerKeys
  exact List.pairwise_map.mpr (h.imp ne_of_lt)

/-- In a list with duplicate-free keys, at most one entry carries a given
key. -/
lemma value_unique_of_nodup (l : List (ℚ × Soil)) (hn : (layerKeys l).Nodup)
    (d : ℚ) (a b : Soil) (ha : (d, a) ∈ l) (hb : (d, b) ∈ l) : a = b := by
  induction l with
  | nil => cases ha
  | cons hd tl ih =>
    unfold layerKeys at hn
    simp only [List.map_cons, List.nodup_cons] at hn
    rcases List.mem_cons.mp ha with ha1 | ha1 <;>
      rcases List.mem_cons.mp hb with hb1 | hb1
    · exact ((Prod.mk.injEq _ _ _ _).mp (ha1.trans hb1.symm)).2
    · exfalso
      apply hn.1
      rw [← ha1]
      exact List.mem_map.mpr ⟨(d, b), hb1, rfl⟩
    · exfalso
      apply hn.1
      rw [← hb1]
      exact List.mem_map.mpr ⟨(d, a), ha1, rfl⟩
    · exact ih hn.2 ha1 hb1

/-- The assigned entry is present after `odAssign`. -/
lemma mem_odAssign (l : List (ℚ × Soil)) (d : ℚ) (s : Soil) :
    (d, s) ∈ odAssign l d s := by
  unfold odAssign
  split
  · rename_i hany
    obtain ⟨q, hq, hq1⟩ := List.any_eq_true.mp hany
    refine List.mem_map.mpr ⟨q, hq, ?_⟩
    simp only [of_decide_eq_true hq1, if_pos]
  · exact List.mem_append_right _ (List.mem_singleton.mpr rfl)

/-- Entries of `odAssign l d s` keep their key or are the new entry. -/
lemma mem_odAssign_elim (l : List (ℚ × Soil)) (d : ℚ) (s : Soil) (q : ℚ × Soil)
    (hq : q ∈ odAssign l d s) : q = (d, s) ∨ q ∈ l := by
  unfold odAssign at hq
  split at hq
  · obtain ⟨p, hp, hpq⟩ := List.mem_map.mp hq
    by_cases hpd : p.1 = d
    · left; rw [if_pos hpd] at hpq; exact hpq.symm
    · right; rw [if_neg hpd] at hpq; exact hpq ▸ hp
  · rcases List.mem_append.mp hq with h | h
    · right; exact h
    · left; exact List.mem_singleton.mp h

/-- `add_layer` keeps the iteration order strictly ascending by depth. -/
lemma add_layer_keysSorted (p : SoilProfile) (d : ℚ) (s : Soil)
    (h : KeysSorted p.layers) : KeysSorted (p.add_layer d s).layers := by
  unfold SoilProfile.add_layer
  exact keysSorted_sortLayers _
    (layerKeys_nodup_odAssign _ _ _ (layerKeys_nodup_of_keysSorted _ h))

/-- After `add_layer depth soil` the layer stored at `depth` is `soil`. -/
lemma add_layer_mem (p : SoilProfile) (d : ℚ) (s : Soil) :
    (d, s) ∈ (p.add_layer d s).layers := by
  unfold SoilProfile.add_layer sortLayers
  exact (List.mem_insertionSort layerLE).mpr (mem_odAssign _ _ _)

/-- After `add_layer depth soil` no other soil sits at `depth`: the
previous entry (if any) was overwritten. -/
lemma add_layer_unique (p : SoilProfile) (d : ℚ) (s s' : Soil)
    (h : KeysSorted p.layers) (hmem : (d, s') ∈ (p.add_layer d s).layers) :
    s' = s := by
  have hn := layerKeys_nodup_of_keysSorted _ (add_layer_keysSorted p d s h)
  exact value_unique_of_nodup _ hn d s' s hmem (add_layer_mem p d s)

/-- `remove_layer` raises `KeyError` exactly when no layer sits at the
given depth. -/
lemma remove_layer_error_iff (p : SoilProfile) (d : ℚ) :
    p.remove_layer d = .error .keyError ↔ d ∉ layerKeys p.layers := by
  unfold SoilProfile.remove_layer
  split
  · rename_i hany
    obtain ⟨q, hq, hq1⟩ := List.any_eq_true.mp hany
    simp only [decide_eq_true_eq] at hq1
    constructor
    · intro hcontra; cases hcontra
    · intro hnot
      exact absurd (List.mem_map.mpr ⟨q, hq, hq1⟩) hnot
  · rename_i hany
    constructor
    · intro _
      intro hmem
      obtain ⟨q, hq, hq1⟩ := List.mem_map.mp hmem
      exact hany (List.any_eq_true.mpr ⟨q, hq, by simp [hq1]⟩)
    · intro _; rfl

/-- A successful `remove_layer` keeps the iteration order strictly
ascending. -/
lemma remove_layer_keysSorted (p : SoilProfile) (d : ℚ) (q : SoilProfile)
    (h : KeysSorted p.layers) (hok : p.remove_layer d = .ok q) :
    KeysSorted q.layers := by
  unfold SoilProfile.remove_layer at hok
  split at hok
  · cases hok
    exact List.Pairwise.filter _ h
  · cases hok

/-- Every profile reachable from `SoilProfile()` by `add_layer` /
`remove_layer` keeps its layers strictly sorted by depth. -/
lemma runOps_keysSorted (ops : List LayerOp) (p p' : SoilProfile)
    (h : KeysSorted p.layers) (hrun : runOps p ops = .ok p') :
    KeysSorted p'.layers := by
  induction ops generalizing p with
  | nil =>
    unfold runOps at hrun
    cases hrun
    exact h
  | cons op rest ih =>
    unfold runOps at hrun
    cases op with
    | addL d s =>
      simp only [applyOp] at hrun
      exact ih _ (add_layer_keysSorted p d s h) hrun
    | removeL d =>
      simp only [applyOp] at hrun
      cases hq : p.remove_layer d with
      | ok q =>
        rw [hq] at hrun
        exact ih _ (remove_layer_keysSorted p d q h hq) hrun
      | error e =>
        rw [hq] at hrun
        cases hrun

/-- Below (or at) the top of every layer, the stress loop reads no unit
weight and returns 0. -/
lemma ovtsLayers_zero (l : List (ℚ × Soil)) (z : ℚ) (h : ∀ q ∈ l, z ≤ q.1) :
    ovtsLayers l z = .ok 0 := by
  induction l with
  | nil => rfl
  | cons hd tl ih =>
    obtain ⟨d, s⟩ := hd
    have hlt : ¬ d < z := not_lt.mpr (h _ (List.mem_cons_self _ _))
    cases tl with
    | nil => simp [ovtsLayers, hlt]
    | cons hd2 tl2 =>
      simp only [ovtsLayers, if_neg hlt]
      exact ih (fun q hq => h q (List.mem_cons_of_mem _ hq))

/-- `setattr` with a name the class does not declare stores into the
instance dictionary and raises nothing. -/
lemma setattr_unknown (s : Soil) (k : String) (v : Option ℚ)
    (h : ¬ k ∈ soilDeclaredKeys) :
    setattrSoil s k v = ({ s with extras := odAssign s.extras k v }, none) := by
  unfold setattrSoil
  have hf : soilHandlers.find? (fun q => q.1 == k) = none := by
    rw [List.find?_eq_none]
    intro x hx
    simp only [beq_iff_eq]
    intro hxk
    exact h (hxk ▸ List.mem_map.mpr ⟨x, hx, rfl⟩)
  rw [hf]

/-- `add_to_obj` skips an entry whose value is `None`. -/
lemma addToObj_none_skip (s : Soil) (k : String) (rest : List (String × Option ℚ))
    (ex : List String) :
    addToObj s ((k, none) :: rest) ex = addToObj s rest ex := by
  simp only [addToObj]
  split <;> rfl

/-- A mapping whose every entry is `None`-valued or has an undeclared key
bulk-loads without raising and without touching any declared
attribute. -/
lemma addToObj_harmless (s : Soil) (d : List (String × Option ℚ))
    (h : ∀ q ∈ d, q.2 = none ∨ ¬ q.1 ∈ soilDeclaredKeys) :
    (addToObj s d []).2 = none ∧ (addToObj s d []).1.clearExtras = s.clearExtras := by
  induction d generalizing s with
  | nil => exact ⟨rfl, rfl⟩
  | cons q rest ih =>
    obtain ⟨k, v⟩ := q
    rcases h _ (List.mem_cons_self _ _) with hv | hk
    · subst hv
      rw [addToObj_none_skip]
      exact ih s (fun q hq => h q (List.mem_cons_of_mem _ hq))
    · cases v with
      | none =>
        rw [addToObj_none_skip]
        exact ih s (fun q hq => h q (List.mem_cons_of_mem _ hq))
      | some x =>
        simp only [addToObj]
        rw [if_neg (List.not_mem_nil k)]
        rw [setattr_unknown s k (some x) hk]
        have ih' := ih { s with extras := odAssign s.extras k (some x) }
          (fun q hq => h q (List.mem_cons_of_mem _ hq))
        exact ⟨ih'.1, ih'.2.trans rfl⟩

/-- A `unit_dry_weight` assignment that raises has already overwritten
`_unit_dry_weight` (the first statement of the setter) and mutated
nothing else. -/
lemma udw_err_state (s : Soil) (v : Option ℚ) (h : (s.setUnitDryWeight v).2 ≠ none) :
    (s.setUnitDryWeight v).1 = { s with _unit_dry_weight := v } := by
  unfold Soil.setUnitDryWeight at h ⊢
  cases hec : s._e_curr with
  | some ec =>
      simp only [hec] at h ⊢
      cases v with
      | none => rfl
      | some w =>
          dsimp only at h ⊢
          cases hsg : s._specific_gravity with
          | some g =>
              simp only [hsg] at h ⊢
              split <;> rfl
          | none =>
              simp only [hsg] at h
              exact absurd rfl h
  | none =>
      simp only [hec] at h ⊢
      cases hsg : s._specific_gravity with
      | none =>
          simp only [hsg] at h
          exact absurd rfl h
      | some g =>
          simp only [hsg] at h ⊢
          cases v with
          | none => rfl
          | some w =>
              dsimp only at h ⊢
              by_cases hw : w = 0
              · rw [if_pos hw] at h ⊢
              · rw [if_neg hw] at h ⊢
                unfold Soil.setECurr at h ⊢
                rcases hm : s._e_max with _ | emax <;>
                  rcases hr : s._relative_density with _ | rd <;>
                    rcases hn : s._e_min with _ | emin <;>
                      simp only [hm, hr, hn] at h ⊢ <;>
                        first
                          | exact absurd rfl h
                          | (split <;> rfl)

/-- A `specific_gravity` assignment that raises has already overwritten
`_specific_gravity` and mutated nothing else (the nested
`unit_dry_weight` assignment it may perform re-derives a value that is
exactly consistent and so never raises). -/
lemma sg_err_state (s : Soil) (v : Option ℚ) (h : (s.setSpecificGravity v).2 ≠ none) :
    (s.setSpecificGravity v).1 = { s with _specific_gravity := v } := by
  unfold Soil.setSpecificGravity at h ⊢
  cases hec : s._e_curr with
  | none =>
      simp only [hec] at h
      exact absurd rfl h
  | some ec =>
      simp only [hec] at h ⊢
      cases v with
      | none => rfl
      | some g =>
          dsimp only at h ⊢
          by_cases h0 : 1 + ec = 0
          · rw [if_pos h0] at h ⊢
          · rw [if_neg h0] at h ⊢
            cases hu : s._unit_dry_weight with
            | some u =>
                simp only [hu] at h ⊢
                split <;> rfl
            | none =>
                simp only [hu] at h ⊢
                unfold Soil.setUnitDryWeight at h ⊢
                simp only [hec] at h ⊢
                have hgg : (1 + ec) * (g * 1000 / (1 + ec)) / 1000 = g := by
                  field_simp
                rw [if_neg (fun hc => hc hgg.symm)] at h
                exact absurd rfl h

/-- The scenario profile iterates its two layers in depth order. -/
lemma c6_layers : c6_profile.layers = [(0, soilA), (5, soilB)] := by
  norm_num [c6_profile, SoilProfile.add_layer, SoilProfile.initial, odAssign, sortLayers,
    List.insertionSort, List.orderedInsert, layerLE, soilA, soilB, freshSoil,
    Soil.setUnitDryWeight]

/-- `soilA` is unsaturated, so its `unit_weight` is the dry weight. -/
lemma soilA_unitWeight : Soil.unitWeight soilA = some 18000 := by
  norm_num [soilA, freshSoil, Soil.setUnitDryWeight, Soil.unitWeight]

/-- `soilB` is unsaturated, so its `unit_weight` is the dry weight. -/
lemma soilB_unitWeight : Soil.unitWeight soilB = some 19000 := by
  norm_num [soilB, freshSoil, Soil.setUnitDryWeight, Soil.unitWeight]

/-- Total stress of the scenario profile at depth 3. -/
lemma c6_stress3 : c6_profile.one_vertical_total_stress 3 = .ok (3 * 18000) := by
  rw [SoilProfile.one_vertical_total_stress, c6_layers]
  norm_num [ovtsLayers, Soil.unitWeight, soilA, soilB, freshSoil, Soil.setUnitDryWeight]

/-- Total stress of the scenario profile at depth 7. -/
lemma c6_stress7 : c6_profile.one_vertical_total_stress 7 = .ok (5 * 18000 + 2 * 19000) := by
  rw [SoilProfile.one_vertical_total_stress, c6_layers]
  norm_num [ovtsLayers, Soil.unitWeight, soilA, soilB, freshSoil, Soil.setUnitDryWeight]

/-- Total stress of the scenario profile at depth 1. -/
lemma c6_stress1 : c6_profile.one_vertical_total_stress 1 = .ok 18000 := by
  rw [SoilProfile.one_vertical_total_stress, c6_layers]
  norm_num [ovtsLayers, Soil.unitWeight, soilA, soilB, freshSoil, Soil.setUnitDryWeight]

/-- C1: on a Soil with `e_min = 0.4 < e_max = 0.8` and
`relative_density = 0.5` set and `e_curr` unset, assigning
`e_curr = e_max - relative_density * (e_max - e_min) = 0.6` raises
nothing — but, contrary to the claim, reading `e_curr` afterwards
returns `None`, not the assigned value, because the consistent branch of
the setter never stores; assigning the different value `0.7` raises
`ModelError` and leaves the state unchanged. -/
theorem c1_consistent_e_curr_not_stored :
    c1_soil._e_min = some (2/5)
  ∧ c1_soil._e_max = some (4/5)
  ∧ c1_soil._relative_density = some (1/2)
  ∧ c1_soil._e_curr = none
  ∧ (c1_soil.setECurr (some (4/5 - 1/2 * (4/5 - 2/5)))).2 = none
  ∧ (c1_soil.setECurr (some (4/5 - 1/2 * (4/5 - 2/5)))).1._e_curr = none
  ∧ (c1_soil.setECurr (some (7/10))).2 = some PyErr.modelError
  ∧ (c1_soil.setECurr (some (7/10))).1 = c1_soil := by
  norm_num [c1_soil, freshSoil, Soil.setEMin, Soil.setEMax, Soil.setRelativeDensity,
    Soil.setECurr]

/-- C2: serializing a freshly constructed Soil with `to_dict` raises
`AttributeError` at the very first `inputs` key, `g_mod` — the class
declares only `_g_mod` and no `g_mod` property — so the
serialize-then-bulk-load round trip cannot even start on a fresh Soil,
contrary to the claim that it never raises. -/
theorem c2_to_dict_fresh_soil_raises :
    freshSoil.to_dict = Except.error PyErr.attributeError := by
  simp [Soil.to_dict, soilInputs, collectInputs, Soil.getattrInput, freshSoil]

/-- C3: on a fresh Soil, assigning `unit_dry_weight` and then
`specific_gravity` never raises for any pair of values; every pair is
consistent under the current state because `e_curr` is still unset after
the first assignment (no derivation is possible), so the
raise-on-inconsistency half of the claim is vacuously satisfied. -/
theorem c3_fresh_udw_then_sg : ∀ v1 v2 : ℚ,
    ((freshSoil.setUnitDryWeight (some v1)).2 = none)
  ∧ (sgPairConsistent (freshSoil.setUnitDryWeight (some v1)).1 v2 →
      ((freshSoil.setUnitDryWeight (some v1)).1.setSpecificGravity (some v2)).2 = none)
  ∧ (¬ sgPairConsistent (freshSoil.setUnitDryWeight (some v1)).1 v2 →
      ((freshSoil.setUnitDryWeight (some v1)).1.setSpecificGravity (some v2)).2 =
        some PyErr.modelError)
  ∧ (freshSoil.setUnitDryWeight (some v1)).1._e_curr = none := by
  intro v1 v2
  refine ⟨rfl, fun _ => rfl, fun hnc => absurd ?_ hnc, rfl⟩
  intro ec hec u hu
  have hnone : (freshSoil.setUnitDryWeight (some v1)).1._e_curr = none := rfl
  rw [hnone] at hec
  cases hec

/-- C3 witness: a concrete consistent pair on a fresh Soil raises
nothing. -/
theorem c3_witness :
    ((freshSoil.setUnitDryWeight (some 18000)).1.setSpecificGravity (some (53/20))).2 =
      none := by
  have h := c3_fresh_udw_then_sg 18000 (53/20)
  exact h.2.1 (fun ec hec u hu => by rw [h.2.2.2] at hec; cases hec)

/-- C4: for a profile whose layers are sorted by depth (the class
invariant) and all have a set, non-negative `unit_weight`,
`one_vertical_total_stress` is non-decreasing in the query depth, it
returns 0 at or above the first layer top, and in particular
`vertical_total_stress(0) = 0` when the first layer top is 0. -/
theorem c4_total_stress_monotone_zero (p : SoilProfile)
    (hs : List.Pairwise (fun a b : ℚ × Soil => a.1 ≤ b.1) p.layers)
    (hw : ∀ q ∈ p.layers, ∃ w, Soil.unitWeight q.2 = some w ∧ 0 ≤ w) :
    (∀ z1 z2 t1 t2, z1 ≤ z2 → p.one_vertical_total_stress z1 = .ok t1 →
        p.one_vertical_total_stress z2 = .ok t2 → t1 ≤ t2)
  ∧ (∀ z q, p.layers.head? = some q → z ≤ q.1 → p.one_vertical_total_stress z = .ok 0)
  ∧ (∀ q, p.layers.head? = some q → q.1 = 0 → p.vertical_total_stress 0 = .ok 0) := by
  have hw' : ∀ q ∈ p.layers, (Soil.unitWeight q.2).isSome := by
    intro q hq
    obtain ⟨w, hw1, _⟩ := hw q hq
    simp [hw1]
  have heq : ∀ z, p.one_vertical_total_stress z = .ok (ovtsP (resolveWeights p.layers) z) :=
    fun z => ovtsLayers_eq_ovtsP p.layers z hw'
  have hsr : List.Pairwise (fun a b : ℚ × ℚ => a.1 ≤ b.1) (resolveWeights p.layers) := by
    unfold resolveWeights
    exact List.pairwise_map.mpr hs
  have hwr : ∀ q ∈ resolveWeights p.layers, 0 ≤ q.2 := by
    intro q hq
    unfold resolveWeights at hq
    obtain ⟨r, hr, hrq⟩ := List.mem_map.mp hq
    obtain ⟨w, hw1, hw2⟩ := hw r hr
    rw [← hrq]
    simp [hw1]
    exact hw2
  have hzero : ∀ z q, p.layers.head? = some q → z ≤ q.1 →
      p.one_vertical_total_stress z = .ok 0 := by
    intro z q hhead hzq
    apply ovtsLayers_zero
    intro r hr
    cases hl : p.layers with
    | nil => rw [hl] at hr; cases hr
    | cons q0 tl =>
      rw [hl] at hhead hr
      simp only [List.head?_cons, Option.some_inj] at hhead
      subst hhead
      rcases List.mem_cons.mp hr with hr1 | hr1
      · rw [hr1]; exact hzq
      · have := (List.pairwise_cons.mp (hl ▸ hs)).1 r hr1
        exact le_trans hzq this
  refine ⟨?_, hzero, ?_⟩
  · intro z1 z2 t1 t2 hz h1 h2
    rw [heq z1] at h1
    rw [heq z2] at h2
    have e1 : t1 = ovtsP (resolveWeights p.layers) z1 := by
      cases h1; rfl
    have e2 : t2 = ovtsP (resolveWeights p.layers) z2 := by
      cases h2; rfl
    rw [e1, e2]
    exact ovtsP_mono _ hsr hwr hz
  · intro q hhead hq0
    exact hzero 0 q hhead (le_of_eq hq0.symm)

/-- C4 witness: the scenario profile satisfies the hypotheses, its
stresses at depths 3 and 7 compare as required, and its total stress at
the surface is 0. -/
theorem c4_witness :
    (3 * 18000 : ℚ) ≤ 5 * 18000 + 2 * 19000
  ∧ c6_profile.vertical_total_stress 0 = .ok 0 := by
  have hs : List.Pairwise (fun a b : ℚ × Soil => a.1 ≤ b.1) c6_profile.layers := by
    rw [c6_layers]
    norm_num [List.pairwise_cons]
  have hw : ∀ q ∈ c6_profile.layers, ∃ w, Soil.unitWeight q.2 = some w ∧ 0 ≤ w := by
    rw [c6_layers]
    intro q hq
    rcases List.mem_cons.mp hq with h | h
    · exact ⟨18000, by rw [h]; exact soilA_unitWeight, by norm_num⟩
    · rw [List.mem_singleton.mp h]
      exact ⟨19000, soilB_unitWeight, by norm_num⟩
  have h := c4_total_stress_monotone_zero c6_profile hs hw
  refine ⟨h.1 3 7 (3 * 18000) (5 * 18000 + 2 * 19000) (by norm_num) c6_stress3 c6_stress7, ?_⟩
  exact h.2.2 (0, soilA) (by rw [c6_layers]; rfl) rfl

/-- C5: the bulk-load operation `add_to_obj` (instantiated at the `Soil`
entity) skips entries whose value is `None`; it assigns each declared
attribute name through that attribute's property setter (shown for the
five consistency-checking setters); and a mapping of undeclared keys and
`None` values is processed without error and without changing any
declared attribute. -/
theorem c5_bulk_load_contract :
    (∀ (s : Soil) (k : String) (rest : List (String × Option ℚ)) (ex : List String),
      addToObj s ((k, none) :: rest) ex = addToObj s rest ex)
  ∧ (∀ (s : Soil) (v : Option ℚ),
      setattrSoil s "unit_dry_weight" v = s.setUnitDryWeight v
    ∧ setattrSoil s "specific_gravity" v = s.setSpecificGravity v
    ∧ setattrSoil s "e_curr" v = s.setECurr v
    ∧ setattrSoil s "unit_sat_weight" v = s.setUnitSatWeight v
    ∧ setattrSoil s "relative_density" v = s.setRelativeDensity v)
  ∧ (∀ (s : Soil) (d : List (String × Option ℚ)),
      (∀ q ∈ d, q.2 = none ∨ ¬ q.1 ∈ soilDeclaredKeys) →
      (addToObj s d []).2 = none ∧ (addToObj s d []).1.clearExtras = s.clearExtras) := by
  refine ⟨addToObj_none_skip, fun s v => ?_, addToObj_harmless⟩
  refine ⟨?_, ?_, ?_, ?_, ?_⟩ <;> simp [setattrSoil, soilHandlers, List.find?]

/-- C5 witness: a mapping holding one undeclared key and one `None`
value bulk-loads into a fresh Soil without error and without touching
any declared attribute. -/
theorem c5_witness :
    (addToObj freshSoil [("soil_type", some 5), ("phi", none)] []).2 = none
  ∧ (addToObj freshSoil [("soil_type", some 5), ("phi", none)] []).1.clearExtras =
      freshSoil.clearExtras := by
  apply c5_bulk_load_contract.2.2 freshSoil
  intro q hq
  rcases List.mem_cons.mp hq with h | h
  · right
    rw [h]
    intro hmem
    simp only [soilDeclaredKeys, soilHandlers, List.map_cons, List.map_nil] at hmem
    simp at hmem
  · left
    rw [List.mem_singleton.mp h]

/-- C6: on the scenario profile (layers at depths 0 and 5 with dry unit
weights 18000 and 19000, saturation unset, `gwl = 2`), the total
vertical stress at depth 3 is `3 * 18000` and at depth 7 is
`5 * 18000 + 2 * 19000`. -/
theorem c6_two_layer_stress_scenario :
    c6_profile.one_vertical_total_stress 3 = .ok (3 * 18000)
  ∧ c6_profile.one_vertical_total_stress 7 = .ok (5 * 18000 + 2 * 19000) :=
  ⟨c6_stress3, c6_stress7⟩

/-- C7: with `gwl` set, the effective vertical stress equals the total
stress for `z ≤ gwl` and equals
`total - (z - gwl) * unit_weight_water` for `z > gwl`. -/
theorem c7_effective_stress_gwl (p : SoilProfile) (g z t : ℚ) (hg : p.gwl = some g)
    (ht : p.one_vertical_total_stress z = .ok t) :
    (z ≤ g → p.vertical_effective_stress z = .ok t)
  ∧ (g < z → p.vertical_effective_stress z = .ok (t - (z - g) * p.unit_weight_water)) := by
  constructor <;> intro hz <;>
    unfold SoilProfile.vertical_effective_stress <;>
      rw [show p.vertical_total_stress z = .ok t from ht] <;> rw [hg] <;> dsimp only
  · rw [max_eq_right (sub_nonpos.mpr hz), zero_mul, sub_zero]
  · rw [max_eq_left (le_of_lt (sub_pos.mpr hz))]

/-- C7 witness: on the scenario profile (`gwl = 2`), the effective
stress at depth 1 equals the total stress, and at depth 3 it is the
total stress minus one metre of water weight. -/
theorem c7_witness :
    c6_profile.vertical_effective_stress 1 = .ok 18000
  ∧ c6_profile.vertical_effective_stress 3 =
      .ok (3 * 18000 - (3 - 2) * c6_profile.unit_weight_water) := by
  constructor
  · exact (c7_effective_stress_gwl c6_profile 2 1 18000 rfl c6_stress1).1 (by norm_num)
  · exact (c7_effective_stress_gwl c6_profile 2 3 (3 * 18000) rfl c6_stress3).2 (by norm_num)

/-- C8: the freshly constructed profile is sorted; `add_layer` keeps the
iteration order strictly ascending by depth, never raises (it is a total
function), and leaves the given soil as the unique layer at the given
depth (overwriting any previous one); `remove_layer` raises `KeyError`
exactly when no layer sits at the depth and preserves sortedness when it
succeeds; hence every profile reached by a sequence of these mutations
has its layers — and its `depths` list — sorted ascending. -/
theorem c8_layer_mutations_sorted :
    KeysSorted SoilProfile.initial.layers
  ∧ (∀ (p : SoilProfile) (d : ℚ) (s : Soil), KeysSorted p.layers →
      KeysSorted (p.add_layer d s).layers ∧ (d, s) ∈ (p.add_layer d s).layers ∧
      ∀ s', (d, s') ∈ (p.add_layer d s).layers → s' = s)
  ∧ (∀ (p : SoilProfile) (d : ℚ),
      (p.remove_layer d = .error .keyError ↔ ¬ d ∈ p.depths) ∧
      ∀ q, p.remove_layer d = .ok q → KeysSorted p.layers → KeysSorted q.layers)
  ∧ (∀ (ops : List LayerOp) (p' : SoilProfile), runOps SoilProfile.initial ops = .ok p' →
      KeysSorted p'.layers ∧ List.Pairwise (fun a b : ℚ => a < b) p'.depths) := by
  have hinit : KeysSorted SoilProfile.initial.layers := by
    unfold KeysSorted SoilProfile.initial
    exact List.pairwise_singleton _ _
  refine ⟨hinit, ?_, ?_, ?_⟩
  · intro p d s h
    exact ⟨add_layer_keysSorted p d s h, add_layer_mem p d s,
      fun s' hmem => add_layer_unique p d s s' h hmem⟩
  · intro p d
    exact ⟨remove_layer_error_iff p d,
      fun q hok hs => remove_layer_keysSorted p d q hs hok⟩
  · intro ops p' hrun
    have hs := runOps_keysSorted ops SoilProfile.initial p' hinit hrun
    exact ⟨hs, List.pairwise_map.mpr (hs.imp (fun h => h))⟩

/-- C8 witness: adding a layer at depth 5 to the fresh profile keeps the
order sorted, and removing the absent depth 3 raises `KeyError`. -/
theorem c8_witness :
    KeysSorted (SoilProfile.initial.add_layer 5 freshSoil).layers
  ∧ SoilProfile.initial.remove_layer 3 = .error .keyError := by
  have h := c8_layer_mutations_sorted
  refine ⟨(h.2.1 SoilProfile.initial 5 freshSoil h.1).1, ?_⟩
  apply (h.2.2.1 SoilProfile.initial 3).1.mpr
  intro hmem
  simp only [SoilProfile.depths, SoilProfile.initial, List.map_cons, List.map_nil,
    List.mem_singleton] at hmem
  norm_num at hmem

/-- C9 counterexample: a fresh Soil reaches the serialization aggregator
with no usable id — `id` was never assigned, so it is not a non-null
integer — yet `add_to_dict` does not fail with `ModelError`: reading
`an_object.id` raises `AttributeError` first, because the `Soil` class
does not declare an `id` attribute at all. -/
theorem c9_counterexample :
    freshSoil.id = none ∧ addToDict freshSoil ≠ Except.error PyErr.modelError := by
  constructor
  · rfl
  · intro h
    simp [addToDict, freshSoil] at h

/-- C9 (amended): if the entity's `id` instance attribute exists and is
`None`, `add_to_dict` fails with `ModelError`; if `id` was never
assigned the failure is an `AttributeError` instead (the `Soil` class
declares no `id` attribute); with a non-null `id` the check passes and
the object is serialized with `to_dict`. -/
theorem c9_missing_id_amended : ∀ s : Soil,
    (s.id = some none → addToDict s = Except.error PyErr.modelError)
  ∧ (s.id = none → addToDict s = Except.error PyErr.attributeError)
  ∧ (∀ n, s.id = some (some n) → addToDict s = s.to_dict) := by
  intro s
  refine ⟨fun h => ?_, fun h => ?_, fun n h => ?_⟩ <;> unfold addToDict <;> rw [h] <;> simp

/-- C9 witness: a Soil whose `id` was assigned `None` makes
`add_to_dict` fail with `ModelError`. -/
theorem c9_witness : addToDict c9_soil = Except.error PyErr.modelError :=
  (c9_missing_id_amended c9_soil).1 rfl

/-- C10 counterexample: on a soil with `e_curr = 0.5` and
`specific_gravity = 2.65` (hence derived `unit_dry_weight = 5300/3`),
assigning `unit_dry_weight = 1000` raises `ModelError`, yet afterwards
`_unit_dry_weight` holds the new value — the failed assignment did
change the attribute being set, contrary to the claim. -/
theorem c10_counterexample :
    (c10_soil.setUnitDryWeight (some 1000)).2 = some PyErr.modelError
  ∧ ¬ (c10_soil.setUnitDryWeight (some 1000)).1._unit_dry_weight =
      c10_soil._unit_dry_weight := by
  norm_num [c10_soil, freshSoil, Soil.setECurr, Soil.setSpecificGravity,
    Soil.setUnitDryWeight]

/-- C10 (amended): whenever an assignment to `unit_dry_weight` or
`specific_gravity` raises, every peer attribute keeps its prior value,
but the attribute being set itself has already been overwritten with the
new value — the setters store first and check afterwards. -/
theorem c10_failed_setter_state : ∀ (s : Soil) (v : Option ℚ),
    ((s.setUnitDryWeight v).2 ≠ none →
      (s.setUnitDryWeight v).1 = { s with _unit_dry_weight := v })
  ∧ ((s.setSpecificGravity v).2 ≠ none →
      (s.setSpecificGravity v).1 = { s with _specific_gravity := v }) :=
  fun s v => ⟨udw_err_state s v, sg_err_state s v⟩

/-- C10 witness: the concrete failing assignment of the counterexample
leaves exactly the `_unit_dry_weight` slot overwritten. -/
theorem c10_witness :
    (c10_soil.setUnitDryWeight (some 1000)).1 =
      { c10_soil with _unit_dry_weight := some 1000 } := by
  apply (c10_failed_setter_state c10_soil (some 1000)).1
  norm_num [c10_soil, freshSoil, Soil.setECurr, Soil.setSpecificGravity,
    Soil.setUnitDryWeight]
  exact Option.some_ne_none _
